import Mathlib

/-
Shallow embedding of the core data-transformation logic of the personal-finance
web application (repository bharabhi01/personal-finance).

The embedded units and their sources:
  * the data model               (src/types: Transaction, Budget, BudgetStatus)
  * calculateSavings             (src/lib/utils.ts)
  * the IST date helpers and the date-range presets
                                 (src/lib/utils.ts, src/components/ui/DateRangePicker.tsx)
  * the search/tag filter        (src/components/TransactionList.tsx, filteredTransactions)
  * the category ranking         (src/components/charts/ExpensesChart.tsx, category view)
  * the monthly savings series   (SavingsChart, fetchChartData)
  * the monthly trend series     (TrendChart in IncomeChart.tsx, fetchChartData)
  * the heatmap intensity levels (ExpenseHeatmap, getIntensityLevel)
  * getBudget / getBudgetStatus  (src/lib/database.ts)

JavaScript numbers are modelled as rationals (ℚ); ISO date strings are modelled
as structured calendar dates; JavaScript Date instants are modelled as integer
epoch milliseconds together with the viewer timezone offset in minutes
(the value of Date.prototype.getTimezoneOffset).
-/

namespace PersonalFinance

/-! ### Data model (types/index.ts) -/

inductive TransactionType
  | expense
  | income
  | investment
deriving DecidableEq, Repr

/-- Calendar date in the reporting calendar; stands for the parsed form of the
ISO `date` string stored on a transaction row. `month` ranges over 1..12. -/
structure CalDate where
  year : ℤ
  month : ℤ
  day : ℤ
deriving DecidableEq, Repr

/-- Transaction row (types/index.ts). `investment_name` models the extra column
present on investment rows, read in TransactionList through a cast. -/
structure Transaction where
  id : String := ""
  user_id : String := ""
  amount : ℚ
  source : String := ""
  tags : List String := []
  date : CalDate := ⟨2024, 1, 1⟩
  type : TransactionType
  investment_name : Option String := none
deriving DecidableEq, Repr

/-- Budget row (types/index.ts). -/
structure Budget where
  id : String := ""
  user_id : String := ""
  monthly_limit : ℚ
  month : String := ""
deriving DecidableEq, Repr

/-- BudgetStatus record (types/index.ts), as produced by getBudgetStatus. -/
structure BudgetStatus where
  currentExpenses : ℚ
  monthlyLimit : ℚ
  percentage : ℚ
  remainingBudget : ℚ
  isNearLimit : Bool
  isOverBudget : Bool
deriving DecidableEq, Repr

/-! ### Sums and savings (lib/utils.ts, DashboardSummary.tsx) -/

/-- calculateSavings (lib/utils.ts line 32). -/
def calculateSavings (income expenses investments : ℚ) : ℚ :=
  income - (expenses + investments)

/-- reduce((sum, t) => sum + t.amount, 0), the summation used throughout the
charts and in DashboardSummary / getBudgetStatus. -/
def sumAmounts (ts : List Transaction) : ℚ :=
  ts.foldl (fun s t => s + t.amount) 0

/-- filter(t => t.type === ty) followed by the amount sum, as in
DashboardSummary.fetchSummary and SavingsChart.fetchChartData. -/
def sumOfType (ty : TransactionType) (ts : List Transaction) : ℚ :=
  sumAmounts (ts.filter (fun t => t.type = ty))

/-- Summary state of DashboardSummary. -/
structure Summary where
  income : ℚ
  expenses : ℚ
  investments : ℚ
  savings : ℚ
deriving DecidableEq, Repr

/-- DashboardSummary.fetchSummary (lines 71-91): totals by kind over the fetched
collection, and the savings figure via calculateSavings. -/
def dashboardSummary (ts : List Transaction) : Summary :=
  let income := sumOfType .income ts
  let expenses := sumOfType .expense ts
  let investments := sumOfType .investment ts
  { income := income
    expenses := expenses
    investments := investments
    savings := calculateSavings income expenses investments }

/-! ### Filter engine (TransactionList.tsx, filteredTransactions, lines 114-131) -/

/-- haystack.includes(needle) on character lists: true when `n` occurs as a
contiguous run inside the second list. -/
def includesChars (n : List Char) : List Char → Bool
  | [] => n.isEmpty
  | c :: t => n.isPrefixOf (c :: t) || includesChars n t

/-- JavaScript String.prototype.includes. -/
def strIncludes (haystack needle : String) : Bool :=
  includesChars needle.data haystack.data

/-- The label matched by the search: investment rows use investment_name when it
is a non-empty string (the || fallback), all other rows use source. -/
def sourceOf (t : Transaction) : String :=
  if t.type = .investment then
    match t.investment_name with
    | some n => if n = "" then t.source else n
    | none => t.source
  else t.source

/-- filteredTransactions (TransactionList.tsx lines 114-131): a transaction is
kept when the (possibly empty) search text matches its label case-insensitively
and it carries at least one required tag (or no tags are required). -/
def filteredTransactions (searchQuery : String) (tagFilters : List String)
    (ts : List Transaction) : List Transaction :=
  ts.filter fun t =>
    let matchesSearch :=
      decide (searchQuery = "") ||
        strIncludes (sourceOf t).toLower searchQuery.toLower
    let matchesTags :=
      decide (tagFilters.length = 0) ||
        tagFilters.any (fun tag => t.tags.contains tag)
    matchesSearch && matchesTags

/-! ### Category ranking (ExpensesChart.tsx, category view, lines 98-131) -/

/-- One step of the accumulation `categories[category] += amount` into the
insertion-ordered association list of category totals. -/
def addToCat : List (String × ℚ) → String → ℚ → List (String × ℚ)
  | [], c, a => [(c, a)]
  | (c', a') :: rest, c, a =>
      if c' = c then (c', a' + a) :: rest else (c', a') :: addToCat rest c a

/-- The `categories` record built by ExpensesChart (lines 100-108): totals per
source label, in first-occurrence order. -/
def expenseCategories (ts : List Transaction) : List (String × ℚ) :=
  ts.foldl (fun cats t => addToCat cats t.source t.amount) []

/-- Sort the category totals descending by amount (the (a, b) => b[1] - a[1]
comparator on a stable sort) and keep the first 10 entries (lines 111-113). -/
def sortedCategories (ts : List Transaction) : List (String × ℚ) :=
  (List.insertionSort (fun p q => q.2 ≤ p.2) (expenseCategories ts)).take 10

/-- The labels handed to the pie chart (line 115). -/
def categoryChartLabels (ts : List Transaction) : List String :=
  (sortedCategories ts).map Prod.fst

/-- The data values handed to the pie chart (line 116). -/
def categoryChartData (ts : List Transaction) : List ℚ :=
  (sortedCategories ts).map Prod.snd

/-! ### Monthly series (SavingsChart and TrendChart) -/

/-- Index of the calendar month of a date on the integer month axis; two dates
get the same index exactly when their 'MMM yyyy' keys coincide, and the order of
the indices is the chronological order of those keys. -/
def monthIdx (d : CalDate) : ℤ :=
  12 * d.year + (d.month - 1)

/-- The month count of SavingsChart.fetchChartData (lines 110-113):
(end.getFullYear() - start.getFullYear()) * 12 + (end.getMonth() - start.getMonth()) + 1. -/
def monthCount (s e : CalDate) : ℤ :=
  12 * (e.year - s.year) + (e.month - s.month) + 1

/-- The month keys pre-seeded by SavingsChart (lines 116-124): one key per index
0 ≤ i < monthDiff, for the month i months after the start month. -/
def savingsMonthKeys (s e : CalDate) : List ℤ :=
  (List.range (monthCount s e).toNat).map (fun i : ℕ => monthIdx s + (i : ℤ))

/-- SavingsChart.fetchChartData (lines 104-159): every month key in the window
is pre-seeded with an empty bucket, each transaction joins the bucket of its own
month when that bucket exists, the labels are sorted chronologically, and each
bucket's value is calculateSavings of its per-kind sums. Collecting the
transactions of one month by filtering gives the same bucket contents (in the
same order) as pushing each transaction into its bucket in one pass. -/
def savingsChartSeries (s e : CalDate) (ts : List Transaction) : List (ℤ × ℚ) :=
  let labels := List.insertionSort (· ≤ ·) (savingsMonthKeys s e)
  labels.map fun m =>
    let monthTs := ts.filter (fun t => decide (monthIdx t.date = m))
    (m, calculateSavings (sumOfType .income monthTs) (sumOfType .expense monthTs)
          (sumOfType .investment monthTs))

/-- Keys of a JavaScript object in insertion order: first occurrence of each
month index, later duplicates skipped. -/
def firstOccurAux (seen : List ℤ) : List ℤ → List ℤ
  | [] => []
  | x :: xs =>
      if x ∈ seen then firstOccurAux seen xs
      else x :: firstOccurAux (x :: seen) xs

def firstOccurrences (l : List ℤ) : List ℤ :=
  firstOccurAux [] l

/-- Per-month record of TrendChart.fetchChartData (line 340). -/
structure MonthlyAgg where
  income : ℚ
  expenses : ℚ
  investments : ℚ
  savings : ℚ
deriving DecidableEq, Repr

/-- TrendChart.fetchChartData (IncomeChart.tsx lines 339-373): buckets are
created only as transactions are seen, so the key set is the set of months that
contain at least one transaction; keys are then sorted chronologically and each
bucket carries the per-kind sums and the savings of its transactions. Summing a
month's filtered transactions reproduces the per-bucket accumulation. -/
def trendChartSeries (ts : List Transaction) : List (ℤ × MonthlyAgg) :=
  let keys := firstOccurrences (ts.map (fun t => monthIdx t.date))
  let labels := List.insertionSort (· ≤ ·) keys
  labels.map fun m =>
    let monthTs := ts.filter (fun t => decide (monthIdx t.date = m))
    let inc := sumOfType .income monthTs
    let exp := sumOfType .expense monthTs
    let inv := sumOfType .investment monthTs
    (m, { income := inc, expenses := exp, investments := inv,
          savings := calculateSavings inc exp inv })

/-! ### Heatmap intensity (ExpenseHeatmap, getIntensityLevel, lines 351-364) -/

/-- Math.max over the daily totals of the window (spread over a non-empty
array in the source; the empty case is never reached there). -/
def windowMax : List ℚ → ℚ
  | [] => 0
  | x :: xs => xs.foldl max x

/-- getIntensityLevel: level 0 for a zero amount or an all-zero window,
otherwise the band of amount / max among the cut points 0.2, 0.4, 0.6, 0.8. -/
def getIntensityLevel (window : List ℚ) (amount : ℚ) : ℕ :=
  if amount = 0 then 0
  else
    let maxAmount := windowMax window
    if maxAmount = 0 then 0
    else
      let ratio := amount / maxAmount
      if ratio ≤ 2/10 then 1
      else if ratio ≤ 4/10 then 2
      else if ratio ≤ 6/10 then 3
      else if ratio ≤ 8/10 then 4
      else 5

/-! ### Budget evaluator (lib/database.ts) -/

/-- Outcome of the supabase .single() budget lookup: a row, the PGRST116
"no rows" error code, or any other (availability) error. -/
inductive BudgetFetch
  | found (b : Budget)
  | noRows
  | failure
deriving Repr

/-- Opaque store failure surfaced by a throw. -/
inductive DbError
  | dataUnavailable
deriving DecidableEq, Repr

/-- getBudget (database.ts lines 118-136): PGRST116 becomes the null result,
any other error is rethrown, a row is returned as found. -/
def getBudget : BudgetFetch → Except DbError (Option Budget)
  | .found b => .ok (some b)
  | .noRows => .ok none
  | .failure => .error .dataUnavailable

/-- Tail of getBudgetStatus (database.ts lines 197-207): percentage with the
guarded division, remaining budget, and the two threshold flags. -/
def budgetStatusOf (monthlyLimit currentExpenses : ℚ) : BudgetStatus :=
  let percentage : ℚ :=
    if monthlyLimit > 0 then currentExpenses / monthlyLimit * 100 else 0
  { currentExpenses := currentExpenses
    monthlyLimit := monthlyLimit
    percentage := percentage
    remainingBudget := monthlyLimit - currentExpenses
    isNearLimit := decide (percentage ≥ 80) && decide (percentage < 100)
    isOverBudget := decide (percentage ≥ 100) }

/-- getBudgetStatus (database.ts lines 179-208): a missing budget short-circuits
to the null result before any expense arithmetic; otherwise the month's fetched
expense transactions are summed and classified. -/
def getBudgetStatus (resp : BudgetFetch) (monthExpenses : List Transaction) :
    Except DbError (Option BudgetStatus) :=
  match getBudget resp with
  | .error e => .error e
  | .ok none => .ok none
  | .ok (some b) => .ok (some (budgetStatusOf b.monthly_limit (sumAmounts monthExpenses)))

/-! ### JavaScript dates and the range presets (lib/utils.ts, DateRangePicker.tsx)

An instant is its epoch-millisecond value (Date.prototype.getTime). The viewer
timezone enters through `tz`, the constant value of getTimezoneOffset in
minutes (UTC = local wall clock + tz minutes). Component access and the
component constructor use the proleptic Gregorian calendar. -/

/-- Calendar triple (year, month 1..12, day) of a day number counted from
1970-01-01. -/
def civilFromDays (z0 : ℤ) : ℤ × ℤ × ℤ :=
  let z := z0 + 719468
  let era := Int.ediv z 146097
  let doe := z - era * 146097
  let yoe := Int.ediv (doe - Int.ediv doe 1460 + Int.ediv doe 36524 - Int.ediv doe 146096) 365
  let y := yoe + era * 400
  let doy := doe - (365 * yoe + Int.ediv yoe 4 - Int.ediv yoe 100)
  let mp := Int.ediv (5 * doy + 2) 153
  let d := doy - Int.ediv (153 * mp + 2) 5 + 1
  let m := mp + (if mp < 10 then 3 else -9)
  (y + (if m ≤ 2 then 1 else 0), m, d)

/-- Day number from a calendar triple (month 1..12; the day may sit outside
1..31, days count linearly as in the JavaScript Date constructor). -/
def daysFromCivil (y0 m d : ℤ) : ℤ :=
  let y := if m ≤ 2 then y0 - 1 else y0
  let era := Int.ediv y 400
  let yoe := y - era * 400
  let doy := Int.ediv (153 * (m + (if m > 2 then -3 else 9)) + 2) 5 + d - 1
  let doe := yoe * 365 + Int.ediv yoe 4 - Int.ediv yoe 100 + doy
  era * 146097 + doe - 719468

/-- new Date(year, month0, day, h, mi, s): components are local wall clock,
the month (0-based) and day may overflow and are normalized. -/
def jsMakeDate (tz y mo d h mi s : ℤ) : ℤ :=
  let ny := y + Int.ediv mo 12
  let nm := Int.emod mo 12
  let localMs := daysFromCivil ny (nm + 1) d * 86400000 +
    h * 3600000 + mi * 60000 + s * 1000
  localMs + tz * 60000

/-- Local calendar components of an instant: getFullYear, getMonth (0-based),
getDate. -/
structure JsParts where
  year : ℤ
  month0 : ℤ
  day : ℤ
deriving DecidableEq, Repr

def jsLocalParts (tz ms : ℤ) : JsParts :=
  let localMs := ms - tz * 60000
  let p := civilFromDays (Int.ediv localMs 86400000)
  { year := p.1, month0 := p.2.1 - 1, day := p.2.2 }

/-- Offset added by toIndianTime: 5 hours 30 minutes in milliseconds. -/
def istOffsetMs : ℤ := 19800000

/-- toIndianTime (lib/utils.ts line 79): shift by the local offset and the IST
offset; the result is again an instant. -/
def toIndianTime (tz ms : ℤ) : ℤ :=
  ms + tz * 60000 + istOffsetMs

/-- startOfDayIST (lib/utils.ts line 101): rebuild midnight, in local time,
from the IST components. -/
def startOfDayIST (tz ms : ℤ) : ℤ :=
  let p := jsLocalParts tz (toIndianTime tz ms)
  jsMakeDate tz p.year p.month0 p.day 0 0 0

/-- endOfDayIST (lib/utils.ts line 110). -/
def endOfDayIST (tz ms : ℤ) : ℤ :=
  let p := jsLocalParts tz (toIndianTime tz ms)
  jsMakeDate tz p.year p.month0 p.day 23 59 59

/-- startOfMonthIST (lib/utils.ts line 119). -/
def startOfMonthIST (tz ms : ℤ) : ℤ :=
  let p := jsLocalParts tz (toIndianTime tz ms)
  jsMakeDate tz p.year p.month0 1 0 0 0

/-- The preset keys offered by the picker (DateRangePicker.tsx lines 22-29). -/
def recognizedPresets : List String :=
  ["today", "week", "month", "lastMonth", "year", "allTime"]

/-- applyPreset (DateRangePicker.tsx lines 76-118): resolve a preset tag into a
(start, end) instant pair. The switch carries a default arm identical to the
'today' arm; every branch, the default one included, hands its pair to
onDateRangeChange. -/
def applyPreset (tz nowMs : ℤ) (preset : String) : ℤ × ℤ :=
  let istNow := jsLocalParts tz (toIndianTime tz nowMs)
  if preset = "today" then
    (startOfDayIST tz nowMs, endOfDayIST tz nowMs)
  else if preset = "week" then
    let sd := jsLocalParts tz (startOfDayIST tz nowMs)
    (jsMakeDate tz sd.year sd.month0 (sd.day - 7) 0 0 0, endOfDayIST tz nowMs)
  else if preset = "month" then
    (startOfMonthIST tz nowMs, endOfDayIST tz nowMs)
  else if preset = "lastMonth" then
    let lastMonthDate := jsLocalParts tz (jsMakeDate tz istNow.year (istNow.month0 - 1) 1 0 0 0)
    (jsMakeDate tz lastMonthDate.year lastMonthDate.month0 1 0 0 0,
     jsMakeDate tz lastMonthDate.year (lastMonthDate.month0 + 1) 0 23 59 59)
  else if preset = "year" then
    (jsMakeDate tz istNow.year 0 1 0 0 0, endOfDayIST tz nowMs)
  else if preset = "allTime" then
    (jsMakeDate tz 2000 0 1 0 0 0, endOfDayIST tz nowMs)
  else
    (startOfDayIST tz nowMs, endOfDayIST tz nowMs)

/-! ### Sample data used in concrete evaluations -/

/-- One expense in January 2024. -/
def janTx : Transaction :=
  { amount := 50, source := "food", date := ⟨2024, 1, 15⟩, type := .expense }

/-- Eleven expense transactions with eleven distinct categories, amounts
descending from 110 to 10. -/
def elevenCats : List Transaction :=
  [{ amount := 110, source := "c0", type := .expense },
   { amount := 100, source := "c1", type := .expense },
   { amount := 90, source := "c2", type := .expense },
   { amount := 80, source := "c3", type := .expense },
   { amount := 70, source := "c4", type := .expense },
   { amount := 60, source := "c5", type := .expense },
   { amount := 50, source := "c6", type := .expense },
   { amount := 40, source := "c7", type := .expense },
   { amount := 30, source := "c8", type := .expense },
   { amount := 20, source := "c9", type := .expense },
   { amount := 10, source := "c10", type := .expense }]

/-- Two expenses with two distinct categories. -/
def twoCats : List Transaction :=
  [{ amount := 100, source := "food", type := .expense },
   { amount := 50, source := "dining", type := .expense }]

/-! ### Helper lemmas -/

theorem budgetStatusOf_percentage (L E : ℚ) :
    (budgetStatusOf L E).percentage = if L > 0 then E / L * 100 else 0 := rfl

theorem budgetStatusOf_isNearLimit (L E : ℚ) :
    (budgetStatusOf L E).isNearLimit =
      (decide ((budgetStatusOf L E).percentage ≥ 80) &&
        decide ((budgetStatusOf L E).percentage < 100)) := rfl

theorem budgetStatusOf_isOverBudget (L E : ℚ) :
    (budgetStatusOf L E).isOverBudget =
      decide ((budgetStatusOf L E).percentage ≥ 100) := rfl

theorem foldl_amount (ts : List Transaction) :
    ∀ a : ℚ, ts.foldl (fun s t => s + t.amount) a =
      a + ts.foldl (fun s t => s + t.amount) 0 := by
  induction ts with
  | nil => intro a; simp
  | cons t ts ih =>
      intro a
      rw [List.foldl_cons, List.foldl_cons, ih (a + t.amount), ih (0 + t.amount)]
      ring

theorem sumAmounts_cons (t : Transaction) (ts : List Transaction) :
    sumAmounts (t :: ts) = t.amount + sumAmounts ts := by
  simp only [sumAmounts, List.foldl_cons]
  rw [foldl_amount ts (0 + t.amount)]
  ring

/-- Sum of the bucket values of a category association list. -/
def sumSnd (l : List (String × ℚ)) : ℚ :=
  (l.map Prod.snd).sum

theorem sumSnd_cons (p : String × ℚ) (l : List (String × ℚ)) :
    sumSnd (p :: l) = p.2 + sumSnd l := by
  simp [sumSnd]

theorem addToCat_sumSnd (cats : List (String × ℚ)) (c : String) (a : ℚ) :
    sumSnd (addToCat cats c a) = sumSnd cats + a := by
  induction cats with
  | nil => simp [addToCat, sumSnd]
  | cons p rest ih =>
      obtain ⟨c', a'⟩ := p
      by_cases h : c' = c
      · simp only [addToCat, if_pos h, sumSnd_cons]
        ring
      · simp only [addToCat, if_neg h, sumSnd_cons, ih]
        ring

theorem foldl_addToCat_sumSnd (ts : List Transaction) (cats : List (String × ℚ)) :
    sumSnd (ts.foldl (fun cats t => addToCat cats t.source t.amount) cats) =
      sumSnd cats + sumAmounts ts := by
  induction ts generalizing cats with
  | nil => simp [sumAmounts]
  | cons t ts ih =>
      simp only [List.foldl_cons]
      rw [ih, addToCat_sumSnd, sumAmounts_cons]
      ring

theorem expenseCategories_sumSnd (ts : List Transaction) :
    sumSnd (expenseCategories ts) = sumAmounts ts := by
  have h := foldl_addToCat_sumSnd ts []
  simpa [expenseCategories, sumSnd] using h

theorem addToCat_fst_mem (cats : List (String × ℚ)) (c : String) (a : ℚ) :
    ∀ p ∈ addToCat cats c a, p.1 = c ∨ p.1 ∈ cats.map Prod.fst := by
  induction cats with
  | nil =>
      intro p hp
      simp only [addToCat, List.mem_singleton] at hp
      subst hp
      exact Or.inl rfl
  | cons q rest ih =>
      obtain ⟨c', a'⟩ := q
      intro p hp
      by_cases h : c' = c
      · simp only [addToCat, if_pos h, List.mem_cons] at hp
        rcases hp with hp | hp
        · subst hp; exact Or.inl h
        · refine Or.inr ?_
          rw [List.map_cons, List.mem_cons]
          exact Or.inr (List.mem_map_of_mem Prod.fst hp)
      · simp only [addToCat, if_neg h, List.mem_cons] at hp
        rcases hp with hp | hp
        · subst hp
          refine Or.inr ?_
          rw [List.map_cons, List.mem_cons]
          exact Or.inl rfl
        · rcases ih p hp with h1 | h1
          · exact Or.inl h1
          · refine Or.inr ?_
            rw [List.map_cons, List.mem_cons]
            exact Or.inr h1

theorem foldl_addToCat_fst (ts : List Transaction) (cats : List (String × ℚ)) :
    ∀ p ∈ ts.foldl (fun cats t => addToCat cats t.source t.amount) cats,
      p.1 ∈ cats.map Prod.fst ∨ ∃ t ∈ ts, t.source = p.1 := by
  induction ts generalizing cats with
  | nil =>
      intro p hp
      exact Or.inl (List.mem_map_of_mem Prod.fst hp)
  | cons t ts ih =>
      intro p hp
      simp only [List.foldl_cons] at hp
      rcases ih _ p hp with h1 | h1
      · rcases List.mem_map.mp h1 with ⟨q, hq, hq1⟩
        rcases addToCat_fst_mem cats t.source t.amount q hq with h2 | h2
        · exact Or.inr ⟨t, List.mem_cons_self t ts, by rw [← hq1, h2]⟩
        · rw [hq1] at h2
          exact Or.inl h2
      · rcases h1 with ⟨t', ht', hs⟩
        exact Or.inr ⟨t', List.mem_cons_of_mem t ht', hs⟩

theorem expenseCategories_fst (ts : List Transaction) :
    ∀ p ∈ expenseCategories ts, ∃ t ∈ ts, t.source = p.1 := by
  intro p hp
  rcases foldl_addToCat_fst ts [] p hp with h | h
  · simp at h
  · exact h

theorem savingsMonthKeys_sorted (s e : CalDate) :
    (savingsMonthKeys s e).Sorted (· ≤ ·) := by
  unfold savingsMonthKeys List.Sorted
  rw [List.pairwise_map]
  refine (List.pairwise_lt_range _).imp ?_
  intro a b h
  have hab : (a : ℤ) ≤ (b : ℤ) := by exact_mod_cast h.le
  linarith

/-! ### Claim theorems -/

/-- C3: for every budget limit and expense total, the classification produced
by the Budget Evaluator is threshold-exact and mutually exclusive: a percentage
of at least 100 sets isOverBudget, a percentage in [80, 100) sets isNearLimit,
a percentage below 80 sets neither flag, and the two flags are never set at the
same time. -/
theorem c3 (monthlyLimit currentExpenses : ℚ) :
    ((budgetStatusOf monthlyLimit currentExpenses).percentage ≥ 100 →
      (budgetStatusOf monthlyLimit currentExpenses).isOverBudget = true) ∧
    (80 ≤ (budgetStatusOf monthlyLimit currentExpenses).percentage ∧
        (budgetStatusOf monthlyLimit currentExpenses).percentage < 100 →
      (budgetStatusOf monthlyLimit currentExpenses).isNearLimit = true) ∧
    ((budgetStatusOf monthlyLimit currentExpenses).percentage < 80 →
      (budgetStatusOf monthlyLimit currentExpenses).isNearLimit = false ∧
      (budgetStatusOf monthlyLimit currentExpenses).isOverBudget = false) ∧
    ¬((budgetStatusOf monthlyLimit currentExpenses).isOverBudget = true ∧
      (budgetStatusOf monthlyLimit currentExpenses).isNearLimit = true) := by
  refine ⟨fun h => ?_, fun h => ?_, fun h => ?_, fun h => ?_⟩
  · rw [budgetStatusOf_isOverBudget]
    exact decide_eq_true h
  · rw [budgetStatusOf_isNearLimit, Bool.and_eq_true]
    exact ⟨decide_eq_true h.1, decide_eq_true h.2⟩
  · constructor
    · rw [budgetStatusOf_isNearLimit]
      have h80 : decide ((budgetStatusOf monthlyLimit currentExpenses).percentage ≥ 80) = false :=
        decide_eq_false (by intro hc; linarith)
      rw [h80, Bool.false_and]
    · rw [budgetStatusOf_isOverBudget]
      exact decide_eq_false (by intro hc; linarith)
  · obtain ⟨hov, hnear⟩ := h
    rw [budgetStatusOf_isOverBudget] at hov
    rw [budgetStatusOf_isNearLimit, Bool.and_eq_true] at hnear
    have h1 := of_decide_eq_true hov
    have h2 := of_decide_eq_true hnear.2
    linarith

/-- Witness for C3: at limit 1000 and expenses 850 the percentage is 85, so
the evaluator reports isNearLimit. -/
theorem c3_witness : (budgetStatusOf 1000 850).isNearLimit = true :=
  (c3 1000 850).2.1 (by rw [budgetStatusOf_percentage]; norm_num)

/-- C10: for every budget whose monthly limit is at most zero, the guarded
division pins the percentage to exactly 0, so neither threshold flag can be
set, no matter how large the expense total is. -/
theorem c10 (monthlyLimit currentExpenses : ℚ) (h : monthlyLimit ≤ 0) :
    (budgetStatusOf monthlyLimit currentExpenses).percentage = 0 ∧
    (budgetStatusOf monthlyLimit currentExpenses).isOverBudget = false ∧
    (budgetStatusOf monthlyLimit currentExpenses).isNearLimit = false := by
  have hp : (budgetStatusOf monthlyLimit currentExpenses).percentage = 0 := by
    rw [budgetStatusOf_percentage, if_neg (not_lt.mpr h)]
  refine ⟨hp, ?_, ?_⟩
  · rw [budgetStatusOf_isOverBudget]
    exact decide_eq_false (by rw [hp]; norm_num)
  · rw [budgetStatusOf_isNearLimit]
    have h80 : decide ((budgetStatusOf monthlyLimit currentExpenses).percentage ≥ 80) = false :=
      decide_eq_false (by rw [hp]; norm_num)
    rw [h80, Bool.false_and]

/-- Witness for C10: a zero limit with a huge expense total still reports
over-budget as false. -/
theorem c10_witness : (budgetStatusOf 0 1000000).isOverBudget = false :=
  (c10 0 1000000 le_rfl).2.1

/-- C9: when the budget lookup finds no row for the (owner, month) key, the
evaluator returns the distinct null result — not a zeroed status — and that
outcome differs from the store-failure error, which getBudget rethrows. -/
theorem c9 (monthExpenses : List Transaction) :
    getBudgetStatus .noRows monthExpenses = .ok none ∧
    (∀ s : BudgetStatus, getBudgetStatus .noRows monthExpenses ≠ .ok (some s)) ∧
    getBudgetStatus .noRows monthExpenses ≠ .error .dataUnavailable ∧
    getBudget .failure = .error .dataUnavailable := by
  refine ⟨rfl, fun s => ?_, ?_, rfl⟩
  · simp [getBudgetStatus, getBudget]
  · simp [getBudgetStatus, getBudget]

/-- Witness for C9 at the empty expense list. -/
theorem c9_witness : getBudgetStatus .noRows [] = .ok none :=
  (c9 []).1

/-- C6: for every transaction collection, the dashboard's savings figure equals
the income total minus the sum of the expense and investment totals, and a
negative result is an ordinary output. -/
theorem c6 (ts : List Transaction) :
    (dashboardSummary ts).savings =
      (dashboardSummary ts).income -
        ((dashboardSummary ts).expenses + (dashboardSummary ts).investments) ∧
    (dashboardSummary [{ amount := 100, type := .expense }]).savings < 0 := by
  constructor
  · rfl
  · simp only [dashboardSummary, calculateSavings, sumOfType, sumAmounts,
      List.filter_cons, List.filter_nil]
    simp only [reduceCtorEq, if_false, List.foldl_cons, List.foldl_nil]
    norm_num

/-- C7: applying the filter with an empty search string and an empty tag set
returns the input collection unchanged. -/
theorem c7 (ts : List Transaction) : filteredTransactions "" [] ts = ts := by
  simp [filteredTransactions, List.filter_true]

/-- C8: a transaction with an empty tag list is excluded by every non-empty
required-tag filter. -/
theorem c8 (searchQuery : String) (tagFilters : List String) (t : Transaction)
    (ts : List Transaction) (h1 : t.tags = []) (h2 : tagFilters ≠ []) :
    t ∉ filteredTransactions searchQuery tagFilters ts := by
  intro hmem
  have hlen : ¬ (tagFilters.length = 0) := by
    simpa [List.length_eq_zero] using h2
  simp [filteredTransactions, List.mem_filter, h1, hlen] at hmem

/-- Witness for C8: a tagless transaction does not survive the ["food"]
filter even though it is in the input. -/
theorem c8_witness :
    ({ amount := 5, type := .expense } : Transaction) ∉
      filteredTransactions "" ["food"]
        [{ amount := 5, type := .expense }] :=
  c8 "" ["food"] _ _ rfl (by simp)

/-- C5: the heatmap intensity is 0 on a zero-spend day and on an all-zero
window; otherwise it is the band of the day's ratio to the window maximum at
the cut points 0.2, 0.4, 0.6, 0.8; the daily amounts 0,10,20,30,40,50 produce
the levels 0,1,2,3,4,5. -/
theorem c5 (window : List ℚ) (amount : ℚ) :
    (amount = 0 → getIntensityLevel window amount = 0) ∧
    (windowMax window = 0 → getIntensityLevel window amount = 0) ∧
    (amount ≠ 0 → windowMax window ≠ 0 →
      getIntensityLevel window amount =
        (if amount / windowMax window ≤ 2/10 then 1
         else if amount / windowMax window ≤ 4/10 then 2
         else if amount / windowMax window ≤ 6/10 then 3
         else if amount / windowMax window ≤ 8/10 then 4
         else 5)) ∧
    ([0, 10, 20, 30, 40, 50] : List ℚ).map (getIntensityLevel [0, 10, 20, 30, 40, 50]) =
      [0, 1, 2, 3, 4, 5] := by
  refine ⟨fun h => by simp [getIntensityLevel, h],
    fun h => by simp [getIntensityLevel, h],
    fun h1 h2 => by simp [getIntensityLevel, h1, h2], ?_⟩
  have hmax : windowMax [0, 10, 20, 30, 40, 50] = (50 : ℚ) := by
    simp only [windowMax, List.foldl_cons, List.foldl_nil]
    norm_num [max_def]
  simp only [List.map_cons, List.map_nil, getIntensityLevel, hmax]
  norm_num

/-- Witness for C5: the zero-amount rule, the all-zero-window rule and the
first ratio band, each at a concrete input. -/
theorem c5_witness :
    getIntensityLevel [] 0 = 0 ∧ getIntensityLevel [0, 0] 7 = 0 ∧
    getIntensityLevel [10, 50] 10 = 1 := by
  refine ⟨(c5 [] 0).1 rfl, (c5 [0, 0] 7).2.1 ?_, ?_⟩
  · simp only [windowMax, List.foldl_cons, List.foldl_nil]
    norm_num [max_def]
  · have h := (c5 [10, 50] 10).2.2.1 (by norm_num) ?_
    · rw [h]
      have hm : windowMax [10, 50] = (50 : ℚ) := by
        simp only [windowMax, List.foldl_cons, List.foldl_nil]
        norm_num [max_def]
      rw [hm]
      norm_num
    · simp only [windowMax, List.foldl_cons, List.foldl_nil]
      norm_num [max_def]

/-- C4 (amended): an unrecognized preset tag does not fail; the default arm of
the switch silently substitutes the today range, byte-for-byte the same pair
the 'today' preset produces. -/
theorem c4 (tz nowMs : ℤ) (preset : String) (h : preset ∉ recognizedPresets) :
    applyPreset tz nowMs preset = (startOfDayIST tz nowMs, endOfDayIST tz nowMs) ∧
    applyPreset tz nowMs preset = applyPreset tz nowMs "today" := by
  simp only [recognizedPresets, List.mem_cons, List.not_mem_nil, or_false, not_or] at h
  obtain ⟨h1, h2, h3, h4, h5, h6⟩ := h
  constructor
  · simp [applyPreset, h1, h2, h3, h4, h5, h6]
  · simp [applyPreset, h1, h2, h3, h4, h5, h6]

/-- Witness for C4 at the tag "bogus". -/
theorem c4_witness :
    applyPreset (-330) 1726000000000 "bogus" =
      applyPreset (-330) 1726000000000 "today" :=
  (c4 (-330) 1726000000000 "bogus" (by decide)).2

/-- Counterexample for C4 as frozen: the tag "bogus" is not a recognized
preset, yet applyPreset returns a boundary pair for it — the today range —
rather than failing. -/
theorem c4_counterexample :
    "bogus" ∉ recognizedPresets ∧
    applyPreset (-330) 1726000000000 "bogus" =
      (startOfDayIST (-330) 1726000000000, endOfDayIST (-330) 1726000000000) :=
  ⟨by decide, rfl⟩

/-- C1 (amended): the category ranking keeps the top 10 categories sorted
descending and drops the excluded tail entirely — no Others bucket exists, and
every emitted label is the category of some input transaction. The emitted
values therefore sum to the total of the matching transactions exactly when at
most 10 distinct categories occur. -/
theorem c1 (ts : List Transaction) (h : (expenseCategories ts).length ≤ 10) :
    (categoryChartData ts).sum = sumAmounts ts ∧
    ∀ l ∈ categoryChartLabels ts, ∃ t ∈ ts, t.source = l := by
  have hperm :=
    List.perm_insertionSort (fun p q : String × ℚ => q.2 ≤ p.2) (expenseCategories ts)
  constructor
  · unfold categoryChartData sortedCategories
    have hlen :
        (List.insertionSort (fun p q : String × ℚ => q.2 ≤ p.2)
          (expenseCategories ts)).length ≤ 10 := by
      rw [hperm.length_eq]; exact h
    rw [List.take_of_length_le hlen]
    have hsum := (hperm.map Prod.snd).sum_eq
    rw [hsum]
    exact expenseCategories_sumSnd ts
  · intro l hl
    unfold categoryChartLabels sortedCategories at hl
    obtain ⟨p, hp, rfl⟩ := List.mem_map.mp hl
    have hp1 :
        p ∈ List.insertionSort (fun p q : String × ℚ => q.2 ≤ p.2)
          (expenseCategories ts) :=
      (List.take_sublist 10 _).subset hp
    exact expenseCategories_fst ts p (hperm.mem_iff.mp hp1)

/-- Witness for C1 on two categories: the emitted values sum to the total. -/
theorem c1_witness : (categoryChartData twoCats).sum = sumAmounts twoCats :=
  (c1 twoCats (by decide)).1

/-- Counterexample for C1 as frozen: with eleven distinct categories the chart
emits no Others bucket and the emitted values sum to 650 while the transaction
total is 660, so no synthetic bucket covers the excluded tail. -/
theorem c1_counterexample :
    "Others" ∉ categoryChartLabels elevenCats ∧
    (categoryChartData elevenCats).sum ≠ sumAmounts elevenCats := by
  constructor
  · decide
  · have hdata : categoryChartData elevenCats =
        [110, 100, 90, 80, 70, 60, 50, 40, 30, 20] := by decide
    rw [hdata]
    have htot : sumAmounts elevenCats = 660 := by
      norm_num [sumAmounts, elevenCats, List.foldl_cons, List.foldl_nil]
    rw [htot]
    norm_num [List.sum_cons, List.sum_nil]

/-- C2 (amended): the savings chart's monthly series emits exactly one bucket
per distinct calendar month spanned by the window inclusive, in chronological
order with no gaps, and any bucket whose month has no transactions carries the
value zero. -/
theorem c2 (s e : CalDate) (ts : List Transaction) :
    (savingsChartSeries s e ts).map Prod.fst = savingsMonthKeys s e ∧
    (savingsChartSeries s e ts).length = (monthCount s e).toNat ∧
    ∀ p ∈ savingsChartSeries s e ts,
      (∀ t ∈ ts, monthIdx t.date ≠ p.1) → p.2 = 0 := by
  have hsort := (savingsMonthKeys_sorted s e).insertionSort_eq
  refine ⟨?_, ?_, ?_⟩
  · unfold savingsChartSeries
    rw [hsort, List.map_map]
    exact List.map_id _
  · unfold savingsChartSeries
    rw [hsort, List.length_map]
    unfold savingsMonthKeys
    rw [List.length_map, List.length_range]
  · intro p hp hne
    unfold savingsChartSeries at hp
    rw [hsort] at hp
    obtain ⟨m, hm, rfl⟩ := List.mem_map.mp hp
    have hfil : ts.filter (fun t => decide (monthIdx t.date = m)) = [] := by
      rw [List.filter_eq_nil_iff]
      intro t ht
      simpa using hne t ht
    simp [hfil, sumOfType, sumAmounts, calculateSavings]

/-- Witness for C2: the window 2024-01-01 .. 2024-02-28 yields two buckets even
with no transactions at all, and the empty February bucket of that window
carries the value zero. -/
theorem c2_witness :
    (savingsChartSeries ⟨2024, 1, 1⟩ ⟨2024, 2, 28⟩ [janTx]).length = 2 ∧
    (((24289 : ℤ), (0 : ℚ)) : ℤ × ℚ).2 = 0 := by
  constructor
  · rw [(c2 ⟨2024, 1, 1⟩ ⟨2024, 2, 28⟩ [janTx]).2.1]
    decide
  · refine (c2 ⟨2024, 1, 1⟩ ⟨2024, 2, 28⟩ []).2.2 (24289, 0) ?_ (by simp)
    have hkeys : savingsMonthKeys ⟨2024, 1, 1⟩ ⟨2024, 2, 28⟩ = [(24288 : ℤ), 24289] := by
      decide
    have hins : List.insertionSort (· ≤ ·) [(24288 : ℤ), 24289] = [24288, 24289] := by
      decide
    simp only [savingsChartSeries, hkeys, hins, List.filter_nil,
      List.map_cons, List.map_nil]
    norm_num [sumOfType, sumAmounts, calculateSavings]

/-- Counterexample for C2 as frozen: the trend series of TrendChart creates
buckets only for months that contain a transaction, so the window
2024-01-01 .. 2024-02-28 spans two months yet a collection with one January
transaction produces a single bucket — February is a gap, not a zero bucket. -/
theorem c2_counterexample :
    (monthCount ⟨2024, 1, 1⟩ ⟨2024, 2, 28⟩).toNat = 2 ∧
    (trendChartSeries [janTx]).length = 1 := by
  constructor
  · decide
  · decide

end PersonalFinance
